import Mathlib

/-!
Verification of the linux-whispr real-time audio-capture / VAD / recording
state-machine core, as a shallow embedding of the Python sources:

  - src/linux_whispr/audio/vad.py      (class SileroVAD)
  - src/linux_whispr/audio/capture.py  (class AudioCapture)
  - src/linux_whispr/app.py            (class LinuxWhispr, AppState)
  - src/linux_whispr/constants.py

Modelling conventions:
  - wall-clock instants and durations are rationals (Python floats carry
    exact decimal values in all relevant code paths);
  - the ONNX inference session is an abstract scoring function
    (window, recurrent hidden state, sample rate) to (probability, hidden
    state); the spec itself treats the model as a pluggable probability
    function, not as concrete weights;
  - Python exceptions are modelled by returning an Except value paired
    with the object state at the moment of the raise, since a raised
    exception leaves all attribute mutations performed so far in place;
  - methods that in Python run under the capture lock are modelled as
    atomic functions (the lock serializes them);
  - the RMS audio-level value is advisory float telemetry; the model
    records that a level event is emitted but abstracts the value.
-/

namespace LinuxWhispr

/-- Constant from constants.py: AUDIO_SAMPLE_RATE = 16000. -/
def AUDIO_SAMPLE_RATE : Nat := 16000

/-- Constant from constants.py: AUDIO_CHANNELS = 1. -/
def AUDIO_CHANNELS : Nat := 1

/-- Constant from constants.py: VAD_THRESHOLD = 0.5. -/
def VAD_THRESHOLD : ℚ := 1/2

/-- Constant from constants.py: VAD_SILENCE_DURATION = 2.0 seconds. -/
def VAD_SILENCE_DURATION : ℚ := 2

/-- Constant from constants.py: VAD_MIN_SPEECH_DURATION = 0.3 seconds. -/
def VAD_MIN_SPEECH_DURATION : ℚ := 3/10

/-- Constant from constants.py: MAX_RECORDING_DURATION = 360 seconds. -/
def MAX_RECORDING_DURATION : ℚ := 360

/-- Constant from vad.py: VAD_CHUNK_SAMPLES = 512 (Silero analysis window). -/
def VAD_CHUNK_SAMPLES : Nat := 512

/-- Recurrent hidden state of the Silero model: the v5 format keeps one
state tensor of shape (2, 1, 128); the legacy v4 format keeps separate LSTM
tensors h and c of shape (2, 1, 64) each.  Tensors are flattened to lists. -/
inductive Hidden where
  | stateFmt (s : List ℚ)
  | legacyFmt (ht ct : List ℚ)

/-- Abstract ONNX scoring function: one 512-sample float window, the
recurrent hidden state and the sample rate go in; a speech probability and
the next hidden state come out (vad.py builds exactly these ort inputs). -/
def ScoreFn : Type := List ℚ → Hidden → Nat → ℚ × Hidden

/-- Shallow embedding of vad.py class SileroVAD: constructor parameters and
the mutable attributes set in SileroVAD.__init__ / reset. -/
structure SileroVAD where
  threshold : ℚ
  silence_duration : ℚ
  min_speech_duration : ℚ
  sample_rate : Nat
  session : Option ScoreFn
  use_state_input : Bool
  state : List ℚ
  hTensor : List ℚ
  cTensor : List ℚ
  speech_detected : Bool
  speech_start_time : Option ℚ
  last_speech_time : ℚ

/-- SileroVAD.__init__ from vad.py: no session loaded yet, zeroed state
tensor of 2*1*128 entries, new input format assumed, no speech observed. -/
def mkVad (threshold silence_duration min_speech_duration : ℚ)
    (sample_rate : Nat) : SileroVAD :=
  { threshold := threshold
    silence_duration := silence_duration
    min_speech_duration := min_speech_duration
    sample_rate := sample_rate
    session := none
    use_state_input := true
    state := List.replicate 256 0
    hTensor := []
    cTensor := []
    speech_detected := false
    speech_start_time := none
    last_speech_time := 0 }

/-- SileroVAD.reset from vad.py: zero the hidden tensors of the format in
use and clear the per-session speech tracking fields. -/
def SileroVAD.reset (v : SileroVAD) : SileroVAD :=
  let v2 := if v.use_state_input then { v with state := List.replicate 256 0 }
            else { v with hTensor := List.replicate 128 0,
                          cTensor := List.replicate 128 0 }
  { v2 with speech_detected := false
            speech_start_time := none
            last_speech_time := 0 }

/-- SileroVAD.load from vad.py with the file/network I/O abstracted: the
acquired inference session and the detected input format are stored, then
reset() is called. -/
def SileroVAD.loadWith (v : SileroVAD) (model : ScoreFn)
    (useStateInput : Bool) : SileroVAD :=
  SileroVAD.reset { v with session := some model,
                           use_state_input := useStateInput }

/-- Hidden state currently in use, as read by the ort input dict built in
process_chunk (state in the new format, h and c in the legacy format). -/
def SileroVAD.hidden (v : SileroVAD) : Hidden :=
  if v.use_state_input then .stateFmt v.state
  else .legacyFmt v.hTensor v.cTensor

/-- Write-back of the model outputs into the attributes process_chunk
assigns (self._state, or self._h and self._c). -/
def SileroVAD.writeHidden (v : SileroVAD) : Hidden → SileroVAD
  | .stateFmt s => { v with state := s }
  | .legacyFmt ht ct => { v with hTensor := ht, cTensor := ct }

/-- Split a list into consecutive chunks of n elements, the final chunk
possibly shorter: the iteration space of the for-loop in process_chunk
(range(0, len(audio_float), VAD_CHUNK_SAMPLES)). -/
def chunksOf (n : Nat) (l : List ℚ) : List (List ℚ) :=
  if h : 0 < n ∧ l ≠ [] then
    l.take n :: chunksOf n (l.drop n)
  else []
termination_by l.length
decreasing_by
  simp only [List.length_drop]
  have hl : 0 < l.length := List.length_pos.mpr h.2
  omega

/-- Zero-padding of a final partial window to the full analysis-window
length (np.pad in process_chunk). -/
def padTo (n : Nat) (l : List ℚ) : List ℚ :=
  l ++ List.replicate (n - l.length) 0

/-- SileroVAD.process_chunk from vad.py: raises if the model is not loaded;
otherwise converts int16 samples to floats in [-1, 1], runs the model on
each 512-sample window (threading the recurrent state through), and returns
the probability of the last window (0.0 for an empty input). -/
def SileroVAD.process_chunk (v : SileroVAD) (audio_int16 : List Int) :
    Except String ℚ × SileroVAD :=
  match v.session with
  | none => (.error "VAD model not loaded. Call load() first.", v)
  | some model =>
    let audio_float := audio_int16.map (fun x : Int => (x : ℚ) / 32768)
    let res := (chunksOf VAD_CHUNK_SAMPLES audio_float).foldl
      (fun acc w => model (padTo VAD_CHUNK_SAMPLES w) acc.2 v.sample_rate)
      ((0 : ℚ), v.hidden)
    (.ok res.1, v.writeHidden res.2)

/-- SileroVAD.is_speech from vad.py: score the block at the given monotonic
time; on a probability at or above the threshold mark speech detected
(recording speech_start_time on the first detection only), refresh
last_speech_time and return true; below threshold return false and leave
the tracking fields untouched.  An exception from process_chunk propagates
before any tracking field is written. -/
def SileroVAD.is_speech (v : SileroVAD) (audio_int16 : List Int) (now : ℚ) :
    Except String Bool × SileroVAD :=
  match v.process_chunk audio_int16 with
  | (.error e, v2) => (.error e, v2)
  | (.ok prob, v2) =>
    if v2.threshold ≤ prob then
      let v3 := if v2.speech_detected then v2
                else { v2 with speech_detected := true,
                               speech_start_time := some now }
      (.ok true, { v3 with last_speech_time := now })
    else (.ok false, v2)

/-- SileroVAD.should_stop from vad.py: a pure function of the current state
and the wall-clock instant; true iff speech was detected, the speech span
reached min_speech_duration, and silence since the last speech block has
lasted at least silence_duration. -/
def SileroVAD.should_stop (v : SileroVAD) (now : ℚ) : Bool :=
  if !v.speech_detected then false
  else
    match v.speech_start_time with
    | none => false
    | some st =>
      let speech_duration := v.last_speech_time - st
      let silence_duration := now - v.last_speech_time
      if speech_duration < v.min_speech_duration then false
      else decide (v.silence_duration ≤ silence_duration)

/-- Concrete VAD state for property P3: default thresholds
(min_speech_duration 0.3 s, silence_duration 2.0 s), speech observed from
t = 0 to t = 0.5 and silence thereafter. -/
def p3State : SileroVAD :=
  { mkVad VAD_THRESHOLD VAD_SILENCE_DURATION VAD_MIN_SPEECH_DURATION
      AUDIO_SAMPLE_RATE with
    speech_detected := true
    speech_start_time := some 0
    last_speech_time := 1/2 }

/-- Fresh VAD with all default constructor arguments (SileroVAD() in the
tests and, up to the config values, in LinuxWhispr.setup). -/
def freshDefaultVad : SileroVAD :=
  mkVad VAD_THRESHOLD VAD_SILENCE_DURATION VAD_MIN_SPEECH_DURATION
    AUDIO_SAMPLE_RATE

/-- One interaction of a session with the VAD: a reset() call or one
silence-monitor poll feeding a block to is_speech at a monotonic instant. -/
inductive VadEvent where
  | reset
  | block (audio : List Int) (now : ℚ)

/-- Effect of one VadEvent on the VAD state (a raised exception inside
is_speech leaves the Python object state as it was at the raise). -/
def vadStep (v : SileroVAD) : VadEvent → SileroVAD
  | .reset => v.reset
  | .block audio now => (v.is_speech audio now).2

/-- VAD state after a sequence of reset and is_speech interactions. -/
def runVad (v : SileroVAD) (es : List VadEvent) : SileroVAD :=
  es.foldl vadStep v

/-- Monotonic-clock discipline: every block instant is at least the given
lower bound and the instants are nondecreasing (time.monotonic). -/
def eventTimesMonoB : ℚ → List VadEvent → Bool
  | _, [] => true
  | t, VadEvent.reset :: es => eventTimesMonoB t es
  | t, VadEvent.block _ now :: es => decide (t ≤ now) && eventTimesMonoB now es

/-- Little-endian encoding of a 16-bit unsigned value (struct pack in the
wave module header). -/
def u16le (n : Nat) : List Nat := [n % 256, n / 256 % 256]

/-- Little-endian encoding of a 32-bit unsigned value. -/
def u32le (n : Nat) : List Nat :=
  [n % 256, n / 256 % 256, n / 65536 % 256, n / 16777216 % 256]

/-- Little-endian two's-complement encoding of one int16 sample
(numpy ndarray.tobytes on an int16 array). -/
def i16le (x : Int) : List Nat := u16le (x % 65536).toNat

/-- AudioCapture._to_wav from capture.py, byte for byte: the Python wave
module writes a 44-byte RIFF/WAVE header (fmt chunk: PCM format tag,
AUDIO_CHANNELS channels, sample width 2 bytes, the capture sample rate)
followed by the data chunk holding the raw int16 frames. -/
def to_wav (sample_rate : Nat) (samples : List Int) : List Nat :=
  let data := (samples.map i16le).flatten
  [82, 73, 70, 70] ++ u32le (36 + data.length) ++ [87, 65, 86, 69] ++
  [102, 109, 116, 32] ++ u32le 16 ++ u16le 1 ++ u16le AUDIO_CHANNELS ++
  u32le sample_rate ++ u32le (sample_rate * AUDIO_CHANNELS * 2) ++
  u16le (AUDIO_CHANNELS * 2) ++ u16le 16 ++
  [100, 97, 116, 97] ++ u32le data.length ++ data

/-- Little-endian decoding of two header bytes. -/
def decodeU16 (a b : Nat) : Nat := a + 256 * b

/-- Little-endian decoding of four header bytes. -/
def decodeU32 (a b c d : Nat) : Nat :=
  a + 256 * b + 65536 * c + 16777216 * d

/-- WAV container parser mirroring what wave.open reports when reading the
container back: it checks the RIFF, WAVE, fmt and data tags and returns
(channel count, sample width in bytes, frame rate, frame count), the frame
count being the data chunk length divided by the frame size. -/
def parseWav : List Nat → Option (Nat × Nat × Nat × Nat)
  | a0 :: a1 :: a2 :: a3 :: _r0 :: _r1 :: _r2 :: _r3 ::
    a8 :: a9 :: a10 :: a11 :: a12 :: a13 :: a14 :: a15 ::
    _f0 :: _f1 :: _f2 :: _f3 :: _t0 :: _t1 :: ch1 :: ch2 ::
    sr1 :: sr2 :: sr3 :: sr4 :: _b0 :: _b1 :: _b2 :: _b3 ::
    _ba1 :: _ba2 :: bw1 :: bw2 ::
    a36 :: a37 :: a38 :: a39 :: dl1 :: dl2 :: dl3 :: dl4 :: _rest =>
    if a0 = 82 ∧ a1 = 73 ∧ a2 = 70 ∧ a3 = 70 ∧
       a8 = 87 ∧ a9 = 65 ∧ a10 = 86 ∧ a11 = 69 ∧
       a12 = 102 ∧ a13 = 109 ∧ a14 = 116 ∧ a15 = 32 ∧
       a36 = 100 ∧ a37 = 97 ∧ a38 = 116 ∧ a39 = 97 then
      let nch := decodeU16 ch1 ch2
      let sw := decodeU16 bw1 bw2 / 8
      some (nch, sw, decodeU32 sr1 sr2 sr3 sr4,
            decodeU32 dl1 dl2 dl3 dl4 / (nch * sw))
    else none
  | _ => none

/-- Application states from app.py enum AppState. -/
inductive AppState where
  | IDLE
  | RECORDING
  | PROCESSING
  | ERROR
deriving DecidableEq

/-- Lifecycle events emitted on the event bus by the capture/VAD core
(state.change, hotkey.dictation.start, hotkey.dictation.stop, audio.ready,
audio.level, audio.silence).  The audio.ready payload is the handoff to the
downstream pipeline: _on_audio_ready spawns the processing thread for it. -/
inductive AppEvent where
  | stateChange (oldState newState : AppState)
  | dictationStart
  | dictationStop
  | audioReady (wav_bytes : List Nat) (duration : ℚ)
  | audioLevel
  | audioSilence
deriving DecidableEq

/-- Shallow embedding of capture.py class AudioCapture: the mutable
attributes set in AudioCapture.__init__ (the lock is implicit: the methods
below are atomic; the sounddevice stream handle is reduced to whether it is
open). -/
structure CaptureState where
  sample_rate : Nat
  recording : Bool
  frames : List (List Int)
  stream_open : Bool
  start_time : ℚ
deriving DecidableEq

/-- AudioCapture.start from capture.py.  The Bool result is false when
opening the input device raises (sd.InputStream / stream.start): note that
the frames list, the recording flag and the start time have already been
assigned at that point, so the raise leaves them in place.  When already
recording the call logs a warning and returns unchanged. -/
def startCapture (c : CaptureState) (deviceOk : Bool) (now : ℚ) :
    Bool × CaptureState :=
  if c.recording then (true, c)
  else
    let c2 := { c with frames := [], recording := true, start_time := now }
    if deviceOk then (true, { c2 with stream_open := true })
    else (false, c2)

/-- AudioCapture.stop from capture.py: when not recording, log and return
None; otherwise clear the recording flag, close and drop the stream, then
return None without emitting anything if no frames were captured, else
concatenate the frames, serialize them to WAV, emit audio.ready and return
the WAV bytes. -/
def stopCapture (c : CaptureState) (now : ℚ) :
    CaptureState × Option (List Nat) × List AppEvent :=
  if !c.recording then (c, none, [])
  else
    let c2 := { c with recording := false, stream_open := false }
    if c2.frames.isEmpty then (c2, none, [])
    else
      let wav := to_wav c2.sample_rate c2.frames.flatten
      (c2, some wav, [AppEvent.audioReady wav (now - c2.start_time)])

/-- AudioCapture.duration from capture.py: 0.0 when not recording, else the
monotonic time elapsed since start. -/
def capDuration (c : CaptureState) (now : ℚ) : ℚ :=
  if !c.recording then 0 else now - c.start_time

/-- AudioCapture._audio_callback from capture.py: ignore the block when not
recording; when the elapsed duration has reached MAX_RECORDING_DURATION,
schedule stop() on a separate thread (the Bool result) and append nothing;
otherwise append a copy of the block and emit an audio.level event (the RMS
float value is abstracted). -/
def audioCallback (c : CaptureState) (indata : List Int) (now : ℚ) :
    CaptureState × List AppEvent × Bool :=
  if !c.recording then (c, [], false)
  else if MAX_RECORDING_DURATION ≤ capDuration c now then (c, [], true)
  else ({ c with frames := c.frames ++ [indata] }, [AppEvent.audioLevel], false)

/-- Shallow embedding of the orchestration state of app.py class
LinuxWhispr: the application state, the capture and VAD components, the
_vad_active liveness flag and whether the VAD monitor thread was started. -/
structure App where
  state : AppState
  audio : CaptureState
  vad : SileroVAD
  vad_active : Bool
  vad_thread : Bool

/-- Audio section of config.py class AppConfig (the device string is
abstracted into the deviceOk parameter of startRecording). -/
structure AudioConfig where
  sample_rate : Nat
  silence_threshold : ℚ
  silence_duration : ℚ

/-- Config defaults from config.py: sample_rate = AUDIO_SAMPLE_RATE,
silence_threshold = VAD_THRESHOLD, silence_duration = VAD_SILENCE_DURATION. -/
def defaultAudioConfig : AudioConfig :=
  { sample_rate := AUDIO_SAMPLE_RATE
    silence_threshold := VAD_THRESHOLD
    silence_duration := VAD_SILENCE_DURATION }

/-- LinuxWhispr.setup from app.py, restricted to the capture/VAD wiring:
AudioCapture receives config.audio.sample_rate, while SileroVAD is
constructed with threshold and silence_duration only, so its sample_rate
is the constructor default AUDIO_SAMPLE_RATE whatever the capture rate is.
The initial application state is IDLE. -/
def setupApp (cfg : AudioConfig) : App :=
  { state := AppState.IDLE
    audio := { sample_rate := cfg.sample_rate, recording := false,
               frames := [], stream_open := false, start_time := 0 }
    vad := mkVad cfg.silence_threshold cfg.silence_duration
             VAD_MIN_SPEECH_DURATION AUDIO_SAMPLE_RATE
    vad_active := false
    vad_thread := false }

/-- LinuxWhispr._start_recording from app.py, in source order: set state to
RECORDING (emitting state.change), reset the VAD, start the capture; only
if the capture start returns (instead of raising) emit
hotkey.dictation.start, set _vad_active and start the VAD monitor thread.
A device-open exception propagates to the caller (the Option String). -/
def startRecording (a : App) (deviceOk : Bool) (now : ℚ) :
    App × List AppEvent × Option String :=
  let a1 := { a with state := AppState.RECORDING }
  let a2 := { a1 with vad := a1.vad.reset }
  let r := startCapture a2.audio deviceOk now
  let a3 := { a2 with audio := r.2 }
  if r.1 then
    ({ a3 with vad_active := true, vad_thread := true },
     [AppEvent.stateChange a.state AppState.RECORDING,
      AppEvent.dictationStart], none)
  else
    (a3, [AppEvent.stateChange a.state AppState.RECORDING],
     some "DeviceUnavailable")

/-- LinuxWhispr._stop_recording from app.py: clear _vad_active, set state
to PROCESSING (emitting state.change), emit hotkey.dictation.stop, stop the
capture (which emits audio.ready exactly when it returns WAV bytes); when
the capture returned None, log and set state back to IDLE. -/
def stopRecording (a : App) (now : ℚ) :
    App × Option (List Nat) × List AppEvent :=
  let a1 := { a with vad_active := false, state := AppState.PROCESSING }
  let evs := [AppEvent.stateChange a.state AppState.PROCESSING,
              AppEvent.dictationStop]
  let r := stopCapture a1.audio now
  let a2 := { a1 with audio := r.1 }
  match r.2.1 with
  | none =>
    ({ a2 with state := AppState.IDLE }, none,
     evs ++ r.2.2 ++ [AppEvent.stateChange AppState.PROCESSING AppState.IDLE])
  | some wav => (a2, some wav, evs ++ r.2.2)

/-- LinuxWhispr._on_dictation_hotkey from app.py: toggle semantics — start
when IDLE, stop when RECORDING, log and ignore in any other state. -/
def onDictationHotkey (a : App) (deviceOk : Bool) (now : ℚ) :
    App × List AppEvent × Option String :=
  match a.state with
  | AppState.IDLE => startRecording a deviceOk now
  | AppState.RECORDING =>
    let r := stopRecording a now
    (r.1, r.2.2, none)
  | _ => (a, [], none)

/-- Arbitrary overwrite of every mutable attribute of a SileroVAD: the
stale state a previous session could have left behind (used to express
that reset() makes the next probability independent of all of it). -/
def scribbleVad (v : SileroVAD) (s ht ct : List ℚ) (sd : Bool)
    (sst : Option ℚ) (lst : ℚ) : SileroVAD :=
  { v with
    state := s
    hTensor := ht
    cTensor := ct
    speech_detected := sd
    speech_start_time := sst
    last_speech_time := lst }

/-- Scoring function that reports probability 0 for every window (pure
silence) and leaves the hidden state unchanged. -/
def zeroScore : ScoreFn := fun _ hd _ => (0, hd)

/-- Scoring function that reports probability 1 for every window (certain
speech) and leaves the hidden state unchanged. -/
def oneScore : ScoreFn := fun _ hd _ => (1, hd)

/-- Concrete capture state for property P6: a recording session that
started at t = 0 with an open stream. -/
def guardCapture : CaptureState :=
  { sample_rate := AUDIO_SAMPLE_RATE
    recording := true
    frames := [[0, 0]]
    stream_open := true
    start_time := 0 }

/-- C2: should_stop() returns true iff speech was detected at least once,
last_speech_time minus speech_start_time is at least min_speech_duration,
and now minus last_speech_time is at least silence_duration; with the
default thresholds, a session with speech from t=0 to t=0.5 and silence
thereafter reports should_stop false at t=2.0 and true at t=2.5.  In this
embedding should_stop is a function of the state and the clock returning
only a Bool, so it has no side effects on VAD state by construction. -/
theorem should_stop_spec :
    (∀ (v : SileroVAD) (now st : ℚ), v.speech_start_time = some st →
      (v.should_stop now = true ↔
        v.speech_detected = true ∧
        v.min_speech_duration ≤ v.last_speech_time - st ∧
        v.silence_duration ≤ now - v.last_speech_time)) ∧
    p3State.should_stop 2 = false ∧ p3State.should_stop (5/2) = true := by
  refine ⟨?_,
    by norm_num [SileroVAD.should_stop, p3State, mkVad, VAD_MIN_SPEECH_DURATION,
      VAD_SILENCE_DURATION],
    by norm_num [SileroVAD.should_stop, p3State, mkVad, VAD_MIN_SPEECH_DURATION,
      VAD_SILENCE_DURATION]⟩
  intro v now st hst
  unfold SileroVAD.should_stop
  rw [hst]
  cases hd : v.speech_detected with
  | false => simp
  | true =>
    simp only [Bool.not_true, Bool.false_eq_true, if_false]
    constructor
    · intro h
      by_cases hlt : v.last_speech_time - st < v.min_speech_duration
      · simp [hlt] at h
      · simp only [hlt, if_false, decide_eq_true_eq] at h
        exact ⟨by simp, le_of_not_lt hlt, h⟩
    · intro ⟨_, h1, h2⟩
      have : ¬ v.last_speech_time - st < v.min_speech_duration := not_lt.mpr h1
      simp [this, h2]

/-- Witness for C2 at the concrete P3 state and instant t = 2.5. -/
theorem should_stop_spec_witness :
    p3State.speech_start_time = some 0 ∧ p3State.should_stop (5/2) = true := by
  refine ⟨rfl, (should_stop_spec.1 p3State (5/2) 0 rfl).mpr ⟨rfl, ?_, ?_⟩⟩
  · norm_num [p3State, mkVad, VAD_MIN_SPEECH_DURATION]
  · norm_num [p3State, mkVad, VAD_SILENCE_DURATION]

/-- Helper: writing back the model hidden state touches no field other
than the hidden tensors. -/
theorem writeHidden_fields (v : SileroVAD) (hd : Hidden) :
    (v.writeHidden hd).speech_detected = v.speech_detected ∧
    (v.writeHidden hd).speech_start_time = v.speech_start_time ∧
    (v.writeHidden hd).last_speech_time = v.last_speech_time ∧
    (v.writeHidden hd).threshold = v.threshold ∧
    (v.writeHidden hd).session = v.session := by
  cases hd <;> exact ⟨rfl, rfl, rfl, rfl, rfl⟩

/-- Helper: reset() clears the three speech-tracking fields. -/
theorem reset_tracking_fields (v : SileroVAD) :
    v.reset.speech_detected = false ∧
    v.reset.speech_start_time = none ∧
    v.reset.last_speech_time = 0 :=
  ⟨rfl, rfl, rfl⟩

/-- Helper: reset() keeps the loaded session. -/
theorem reset_session (v : SileroVAD) : v.reset.session = v.session := by
  unfold SileroVAD.reset
  by_cases hu : v.use_state_input = true
  · rw [if_pos hu]
  · rw [if_neg hu]

/-- Helper: reset() keeps the configured sample rate. -/
theorem reset_sample_rate (v : SileroVAD) :
    v.reset.sample_rate = v.sample_rate := by
  unfold SileroVAD.reset
  by_cases hu : v.use_state_input = true
  · rw [if_pos hu]
  · rw [if_neg hu]

/-- Helper: reset() keeps the detected model input format. -/
theorem reset_use_state_input (v : SileroVAD) :
    v.reset.use_state_input = v.use_state_input := by
  unfold SileroVAD.reset
  by_cases hu : v.use_state_input = true
  · rw [if_pos hu]
  · rw [if_neg hu]

/-- Helper: in the new model format, reset() zeroes the state tensor. -/
theorem reset_state_fmt (v : SileroVAD) (hu : v.use_state_input = true) :
    v.reset.state = List.replicate 256 0 := by
  unfold SileroVAD.reset
  rw [if_pos hu]

/-- Helper: in the legacy model format, reset() zeroes the h and c
tensors. -/
theorem reset_legacy_fmt (v : SileroVAD) (hu : v.use_state_input = false) :
    v.reset.hTensor = List.replicate 128 0 ∧
    v.reset.cTensor = List.replicate 128 0 := by
  unfold SileroVAD.reset
  rw [if_neg (by simp [hu])]
  exact ⟨rfl, rfl⟩

/-- Helper: after reset() the hidden state in use is zeroed, whichever
format the model uses. -/
theorem reset_hidden (v : SileroVAD) :
    v.reset.hidden =
      if v.use_state_input = true then Hidden.stateFmt (List.replicate 256 0)
      else Hidden.legacyFmt (List.replicate 128 0) (List.replicate 128 0) := by
  unfold SileroVAD.hidden
  rw [reset_use_state_input]
  by_cases hu : v.use_state_input = true
  · rw [if_pos hu, if_pos hu, reset_state_fmt v hu]
  · rw [if_neg hu, if_neg hu]
    obtain ⟨h1, h2⟩ := reset_legacy_fmt v (by simpa using hu)
    rw [h1, h2]

/-- Helper: the probability side of process_chunk depends only on the
session, the sample rate and the hidden state in use. -/
theorem process_chunk_fst_congr (v1 v2 : SileroVAD)
    (hsess : v1.session = v2.session)
    (hsr : v1.sample_rate = v2.sample_rate)
    (hhid : v1.hidden = v2.hidden) (audio : List Int) :
    (v1.process_chunk audio).1 = (v2.process_chunk audio).1 := by
  unfold SileroVAD.process_chunk
  rw [hsess, hsr, hhid]
  cases v2.session <;> rfl

/-- Helper: unfolding of is_speech when process_chunk raises. -/
theorem is_speech_eq_error (v : SileroVAD) (audio : List Int) (now : ℚ)
    (e : String) (w : SileroVAD)
    (hpc : v.process_chunk audio = (.error e, w)) :
    v.is_speech audio now = (.error e, w) := by
  unfold SileroVAD.is_speech
  rw [hpc]

/-- Helper: unfolding of is_speech when process_chunk returns a
probability. -/
theorem is_speech_eq_ok (v : SileroVAD) (audio : List Int) (now : ℚ)
    (prob : ℚ) (w : SileroVAD)
    (hpc : v.process_chunk audio = (.ok prob, w)) :
    v.is_speech audio now =
      (if w.threshold ≤ prob then
        (.ok true,
         { (if w.speech_detected then w
            else { w with speech_detected := true,
                          speech_start_time := some now }) with
           last_speech_time := now })
      else (.ok false, w)) := by
  unfold SileroVAD.is_speech
  rw [hpc]

/-- Helper: the state returned by process_chunk is either the input state
(raise path) or the input state with only the hidden tensors rewritten. -/
theorem process_chunk_cases (v : SileroVAD) (audio : List Int) :
    (v.process_chunk audio).2 = v ∨
    ∃ hd, (v.process_chunk audio).2 = v.writeHidden hd := by
  unfold SileroVAD.process_chunk
  cases v.session with
  | none => exact Or.inl rfl
  | some m => exact Or.inr ⟨_, rfl⟩

/-- Helper: process_chunk does not change the speech-tracking fields. -/
theorem process_chunk_tracking (v : SileroVAD) (audio : List Int) :
    (v.process_chunk audio).2.speech_detected = v.speech_detected ∧
    (v.process_chunk audio).2.speech_start_time = v.speech_start_time ∧
    (v.process_chunk audio).2.last_speech_time = v.last_speech_time ∧
    (v.process_chunk audio).2.threshold = v.threshold := by
  rcases process_chunk_cases v audio with h | ⟨hd, h⟩
  · rw [h]; exact ⟨rfl, rfl, rfl, rfl⟩
  · rw [h]
    obtain ⟨h1, h2, h3, h4, _⟩ := writeHidden_fields v hd
    exact ⟨h1, h2, h3, h4⟩

/-- Helper: exactly three possible effects of is_speech on the tracking
fields — no change (raise or sub-threshold block), refresh of
last_speech_time only (detection while already detected), or first
detection (all three fields set from the current instant). -/
theorem is_speech_tracking (v : SileroVAD) (audio : List Int) (now : ℚ) :
    ((v.is_speech audio now).2.speech_detected = v.speech_detected ∧
     (v.is_speech audio now).2.speech_start_time = v.speech_start_time ∧
     (v.is_speech audio now).2.last_speech_time = v.last_speech_time) ∨
    (v.speech_detected = true ∧
     (v.is_speech audio now).2.speech_detected = true ∧
     (v.is_speech audio now).2.speech_start_time = v.speech_start_time ∧
     (v.is_speech audio now).2.last_speech_time = now) ∨
    (v.speech_detected = false ∧
     (v.is_speech audio now).2.speech_detected = true ∧
     (v.is_speech audio now).2.speech_start_time = some now ∧
     (v.is_speech audio now).2.last_speech_time = now) := by
  obtain ⟨hA, hB, hC, _⟩ := process_chunk_tracking v audio
  rcases hpc : v.process_chunk audio with ⟨r, w⟩
  rw [hpc] at hA hB hC
  cases r with
  | error e =>
    rw [is_speech_eq_error v audio now e w hpc]
    exact Or.inl ⟨hA, hB, hC⟩
  | ok prob =>
    rw [is_speech_eq_ok v audio now prob w hpc]
    by_cases hth : w.threshold ≤ prob
    · rw [if_pos hth]
      by_cases hw : w.speech_detected = true
      · rw [if_pos hw]
        exact Or.inr (Or.inl ⟨hA.symm.trans hw, hw, hB, rfl⟩)
      · rw [if_neg hw]
        have hwf : w.speech_detected = false := by
          cases hdet : w.speech_detected
          · rfl
          · exact absurd hdet hw
        exact Or.inr (Or.inr ⟨hA.symm.trans hwf, rfl, rfl, rfl⟩)
    · rw [if_neg hth]
      exact Or.inl ⟨hA, hB, hC⟩

/-- C10: with no model loaded, process_chunk reports the "VAD model not
loaded" error instead of a probability, and is_speech propagates that same
error while leaving every field of the VAD state — in particular
speech_detected, speech_start_time and last_speech_time — unchanged. -/
theorem vad_not_loaded_error (v : SileroVAD) (audio : List Int) (now : ℚ)
    (hs : v.session = none) :
    v.process_chunk audio =
      (Except.error "VAD model not loaded. Call load() first.", v) ∧
    v.is_speech audio now =
      (Except.error "VAD model not loaded. Call load() first.", v) := by
  unfold SileroVAD.is_speech SileroVAD.process_chunk
  rw [hs]
  exact ⟨rfl, rfl⟩

/-- Witness for C10 at the freshly constructed (never loaded) VAD. -/
theorem vad_not_loaded_error_witness :
    freshDefaultVad.session = none ∧
    freshDefaultVad.is_speech [0] 1 =
      (Except.error "VAD model not loaded. Call load() first.",
       freshDefaultVad) :=
  ⟨rfl, (vad_not_loaded_error freshDefaultVad [0] 1 rfl).2⟩

/-- C6: every Idle to Recording transition resets the VAD
(_start_recording calls reset() before opening the stream, and the VAD
field of the resulting application state is exactly the reset of the old
one); reset() yields speech_detected false, a cleared speech_start_time, a
zeroed last_speech_time and zeroed hidden tensors for the format in use;
consequently the probability process_chunk produces for the first block
after reset() does not depend on any of the mutable VAD state left by the
previous session. -/
theorem session_start_resets_vad :
    (∀ (a : App) (deviceOk : Bool) (now : ℚ),
      (startRecording a deviceOk now).1.vad = a.vad.reset) ∧
    (∀ v : SileroVAD,
      v.reset.speech_detected = false ∧
      v.reset.speech_start_time = none ∧
      v.reset.last_speech_time = 0 ∧
      (v.use_state_input = true → v.reset.state = List.replicate 256 0) ∧
      (v.use_state_input = false →
        v.reset.hTensor = List.replicate 128 0 ∧
        v.reset.cTensor = List.replicate 128 0)) ∧
    (∀ (v : SileroVAD) (s ht ct : List ℚ) (sd : Bool) (sst : Option ℚ)
       (lst : ℚ) (audio : List Int),
      ((scribbleVad v s ht ct sd sst lst).reset.process_chunk audio).1 =
      (v.reset.process_chunk audio).1) := by
  refine ⟨?_, ?_, ?_⟩
  · intro a deviceOk now
    unfold startRecording
    dsimp only
    split <;> rfl
  · intro v
    exact ⟨rfl, rfl, rfl, fun hu => reset_state_fmt v hu,
      fun hu => reset_legacy_fmt v hu⟩
  · intro v s ht ct sd sst lst audio
    apply process_chunk_fst_congr
    · rw [reset_session, reset_session]; rfl
    · rw [reset_sample_rate, reset_sample_rate]; rfl
    · rw [reset_hidden, reset_hidden]; rfl

/-- Witness for C6's conditional freshness conjuncts at the default VAD
(which uses the new state format). -/
theorem session_start_resets_vad_witness :
    freshDefaultVad.use_state_input = true ∧
    freshDefaultVad.reset.state = List.replicate 256 0 :=
  ⟨rfl, (session_start_resets_vad.2.1 freshDefaultVad).2.2.2.1 rfl⟩

/-- Helper: reset() keeps the configured threshold. -/
theorem reset_threshold (v : SileroVAD) : v.reset.threshold = v.threshold := by
  unfold SileroVAD.reset
  by_cases hu : v.use_state_input = true
  · rw [if_pos hu]
  · rw [if_neg hu]

/-- Helper: loadWith is reset() after storing the session and format. -/
theorem loadWith_eq_reset (v : SileroVAD) (m : ScoreFn) (fmt : Bool) :
    v.loadWith m fmt =
      SileroVAD.reset { v with session := some m, use_state_input := fmt } :=
  rfl

/-- Helper: should_stop is false whenever no speech was detected. -/
theorem should_stop_not_detected (v : SileroVAD)
    (hd : v.speech_detected = false) (now : ℚ) :
    v.should_stop now = false := by
  unfold SileroVAD.should_stop
  rw [hd]
  rfl

/-- Helper: unfolding of process_chunk for a loaded session. -/
theorem process_chunk_loaded (v : SileroVAD) (m : ScoreFn)
    (hs : v.session = some m) (audio : List Int) :
    v.process_chunk audio =
      ((chunksOf VAD_CHUNK_SAMPLES
          (audio.map (fun x : Int => (x : ℚ) / 32768))).foldl
        (fun acc w => m (padTo VAD_CHUNK_SAMPLES w) acc.2 v.sample_rate)
        ((0 : ℚ), v.hidden) |>
       fun res => (Except.ok res.1, v.writeHidden res.2)) := by
  unfold SileroVAD.process_chunk
  rw [hs]

/-- Helper: chunksOf on the empty list. -/
theorem chunksOf_nil (n : Nat) : chunksOf n [] = [] := by
  unfold chunksOf
  simp

/-- Helper: the session invariant — whenever speech was detected the start
timestamp exists and does not exceed the last-speech timestamp — is
preserved by any run of reset and is_speech events under a monotonic
clock that also bounds the current last_speech_time. -/
theorem runVad_inv (es : List VadEvent) :
    ∀ (v : SileroVAD) (t : ℚ),
      (v.speech_detected = true →
        ∃ st, v.speech_start_time = some st ∧ st ≤ v.last_speech_time) →
      v.last_speech_time ≤ t → 0 ≤ t →
      eventTimesMonoB t es = true →
      ((runVad v es).speech_detected = true →
        ∃ st, (runVad v es).speech_start_time = some st ∧
          st ≤ (runVad v es).last_speech_time) := by
  induction es with
  | nil => intro v t hInv _ _ _; exact hInv
  | cons e es ih =>
    intro v t hInv hle ht hmono
    cases e with
    | reset =>
      have hrun : runVad v (VadEvent.reset :: es) = runVad v.reset es := rfl
      rw [hrun]
      refine ih v.reset t ?_ ?_ ht hmono
      · intro hdet
        rw [(reset_tracking_fields v).1] at hdet
        exact absurd hdet (by simp)
      · rw [(reset_tracking_fields v).2.2]
        exact ht
    | block audio now =>
      have hrun : runVad v (VadEvent.block audio now :: es) =
          runVad (v.is_speech audio now).2 es := rfl
      rw [hrun]
      have hmono' : (decide (t ≤ now) && eventTimesMonoB now es) = true := hmono
      have htn : t ≤ now :=
        of_decide_eq_true ((Bool.and_eq_true _ _).mp hmono').1
      have hmono2 : eventTimesMonoB now es = true :=
        ((Bool.and_eq_true _ _).mp hmono').2
      have hnow0 : (0 : ℚ) ≤ now := le_trans ht htn
      refine ih (v.is_speech audio now).2 now ?_ ?_ hnow0 hmono2
      · rcases is_speech_tracking v audio now with
          ⟨h1, h2, h3⟩ | ⟨hv, h1, h2, h3⟩ | ⟨hv, h1, h2, h3⟩
        · intro hdet
          rw [h1] at hdet
          obtain ⟨st, hst, hle2⟩ := hInv hdet
          refine ⟨st, ?_, ?_⟩
          · rw [h2]; exact hst
          · rw [h3]; exact hle2
        · intro _
          obtain ⟨st, hst, hle2⟩ := hInv hv
          refine ⟨st, ?_, ?_⟩
          · rw [h2]; exact hst
          · rw [h3]
            exact le_trans hle2 (le_trans hle htn)
        · intro _
          refine ⟨now, h2, ?_⟩
          rw [h3]
      · rcases is_speech_tracking v audio now with
          ⟨_, _, h3⟩ | ⟨_, _, _, h3⟩ | ⟨_, _, _, h3⟩
        · rw [h3]; exact le_trans hle htn
        · rw [h3]
        · rw [h3]

/-- C7: for every reachable VAD state — any sequence of reset() and
is_speech() interactions on a loaded VAD under a monotonic clock —
last_speech_time is at least speech_start_time whenever speech_detected is
true; should_stop is false whenever speech_detected is false; and a
sub-threshold block (is_speech returning false) never clears
speech_detected. -/
theorem vad_state_invariants :
    (∀ (th sil minsp : ℚ) (sr : Nat) (model : ScoreFn) (fmt : Bool)
       (es : List VadEvent),
      eventTimesMonoB 0 es = true →
      (((runVad ((mkVad th sil minsp sr).loadWith model fmt) es).speech_detected
          = true →
        ∃ st,
          (runVad ((mkVad th sil minsp sr).loadWith model fmt) es).speech_start_time
            = some st ∧
          st ≤ (runVad ((mkVad th sil minsp sr).loadWith model fmt) es).last_speech_time) ∧
       ((runVad ((mkVad th sil minsp sr).loadWith model fmt) es).speech_detected
          = false →
        ∀ now,
          (runVad ((mkVad th sil minsp sr).loadWith model fmt) es).should_stop now
            = false))) ∧
    (∀ (v : SileroVAD) (audio : List Int) (now : ℚ),
      (v.is_speech audio now).1 = Except.ok false →
      (v.is_speech audio now).2.speech_detected = v.speech_detected) := by
  constructor
  · intro th sil minsp sr model fmt es hmono
    constructor
    · refine runVad_inv es _ 0 ?_ ?_ le_rfl hmono
      · intro hdet
        rw [loadWith_eq_reset, (reset_tracking_fields _).1] at hdet
        exact absurd hdet (by simp)
      · rw [loadWith_eq_reset, (reset_tracking_fields _).2.2]
    · intro hdet now
      exact should_stop_not_detected _ hdet now
  · intro v audio now hok
    rcases hpc : v.process_chunk audio with ⟨r, w⟩
    have htr := (process_chunk_tracking v audio).1
    rw [hpc] at htr
    cases r with
    | error e =>
      rw [is_speech_eq_error v audio now e w hpc] at hok
      exact absurd hok (by simp)
    | ok prob =>
      rw [is_speech_eq_ok v audio now prob w hpc] at hok
      rw [is_speech_eq_ok v audio now prob w hpc]
      by_cases hth : w.threshold ≤ prob
      · rw [if_pos hth] at hok
        exact absurd hok (by simp)
      · rw [if_neg hth]
        exact htr

/-- Witness for C7: a one-block monotonic run of a loaded VAD, and a
sub-threshold is_speech call on a loaded VAD fed an empty block. -/
theorem vad_state_invariants_witness :
    (eventTimesMonoB 0 [VadEvent.block [0] 1] = true ∧
     ((runVad ((mkVad VAD_THRESHOLD VAD_SILENCE_DURATION
          VAD_MIN_SPEECH_DURATION AUDIO_SAMPLE_RATE).loadWith oneScore true)
        [VadEvent.block [0] 1]).speech_detected = true →
      ∃ st,
        (runVad ((mkVad VAD_THRESHOLD VAD_SILENCE_DURATION
            VAD_MIN_SPEECH_DURATION AUDIO_SAMPLE_RATE).loadWith oneScore true)
          [VadEvent.block [0] 1]).speech_start_time = some st ∧
        st ≤ (runVad ((mkVad VAD_THRESHOLD VAD_SILENCE_DURATION
            VAD_MIN_SPEECH_DURATION AUDIO_SAMPLE_RATE).loadWith oneScore true)
          [VadEvent.block [0] 1]).last_speech_time)) ∧
    (((freshDefaultVad.loadWith oneScore true).is_speech [] 5).1
        = Except.ok false ∧
     ((freshDefaultVad.loadWith oneScore true).is_speech [] 5).2.speech_detected
        = (freshDefaultVad.loadWith oneScore true).speech_detected) := by
  have hmono : eventTimesMonoB 0 [VadEvent.block [0] 1] = true := by
    simp [eventTimesMonoB]
  have hsess : (freshDefaultVad.loadWith oneScore true).session = some oneScore := by
    rw [loadWith_eq_reset, reset_session]
  have hpc : (freshDefaultVad.loadWith oneScore true).process_chunk [] =
      (Except.ok 0,
       (freshDefaultVad.loadWith oneScore true).writeHidden
         (freshDefaultVad.loadWith oneScore true).hidden) := by
    rw [process_chunk_loaded _ oneScore hsess]
    simp [chunksOf_nil]
  have hth : ¬((freshDefaultVad.loadWith oneScore true).writeHidden
      (freshDefaultVad.loadWith oneScore true).hidden).threshold ≤ (0 : ℚ) := by
    have hw := (writeHidden_fields (freshDefaultVad.loadWith oneScore true)
      (freshDefaultVad.loadWith oneScore true).hidden).2.2.2.1
    rw [hw, loadWith_eq_reset, reset_threshold]
    norm_num [freshDefaultVad, mkVad, VAD_THRESHOLD]
  have hok : ((freshDefaultVad.loadWith oneScore true).is_speech [] 5).1
      = Except.ok false := by
    rw [is_speech_eq_ok _ [] 5 0 _ hpc, if_neg hth]
  refine ⟨⟨hmono, ?_⟩, hok, vad_state_invariants.2 _ [] 5 hok⟩
  exact (vad_state_invariants.1 VAD_THRESHOLD VAD_SILENCE_DURATION
    VAD_MIN_SPEECH_DURATION AUDIO_SAMPLE_RATE oneScore true
    [VadEvent.block [0] 1] hmono).1

/-- Helper: a Bool that is not true negates to true. -/
theorem bool_not_true_of_ne (b : Bool) (h : ¬ b = true) : (!b) = true := by
  cases b
  · rfl
  · exact absurd rfl h

/-- Helper: a true Bool does not negate to true. -/
theorem bool_not_true_eq_false (b : Bool) (h : b = true) : ¬ (!b) = true := by
  subst h
  simp

/-- Helper: the state after a stop() call on a recording capture — flag
cleared and stream released — whichever way the frames branch goes. -/
theorem stopCapture_closed (c : CaptureState) (now : ℚ)
    (hrec : c.recording = true) :
    (stopCapture c now).1 =
      { c with recording := false, stream_open := false } := by
  unfold stopCapture
  rw [if_neg (bool_not_true_eq_false c.recording hrec)]
  dsimp only
  split <;> rfl

/-- Helper: stop() on a non-recording capture is a strict no-op returning
None. -/
theorem stopCapture_noop (c : CaptureState) (now : ℚ)
    (hrec : ¬ c.recording = true) :
    stopCapture c now = (c, none, []) := by
  unfold stopCapture
  rw [if_pos (bool_not_true_of_ne c.recording hrec)]

/-- Helper: stop() always leaves the recording flag cleared. -/
theorem stopCapture_not_recording (c : CaptureState) (now : ℚ) :
    (stopCapture c now).1.recording = false := by
  by_cases hrec : c.recording = true
  · rw [stopCapture_closed c now hrec]
  · rw [stopCapture_noop c now hrec]
    cases hb : c.recording
    · rfl
    · exact absurd hb hrec

/-- Helper: stop() with an empty frame list returns None and emits
nothing. -/
theorem stopCapture_empty (c : CaptureState) (now : ℚ)
    (hf : c.frames = []) :
    (stopCapture c now).2.1 = none ∧ (stopCapture c now).2.2 = [] := by
  by_cases hrec : c.recording = true
  · unfold stopCapture
    rw [if_neg (bool_not_true_eq_false c.recording hrec)]
    dsimp only
    rw [if_pos (by simp [hf])]
    exact ⟨rfl, rfl⟩
  · rw [stopCapture_noop c now hrec]
    exact ⟨rfl, rfl⟩

/-- C4: once elapsed capture time reaches MAX_RECORDING_DURATION the
driver callback appends nothing and only schedules stop() on a separate
thread — even if several late callbacks do so, the first stop() clears the
recording flag and releases the stream, and every later stop() call
returns None without touching the state or emitting anything, and every
later callback is a no-op: buffer finalization and WAV emission happen at
most once per session. -/
theorem duration_guard_stop_exactly_once
    (c : CaptureState) (indata d2 : List Int) (now1 now2 now3 : ℚ)
    (hrec : c.recording = true) :
    (MAX_RECORDING_DURATION ≤ now1 - c.start_time →
      audioCallback c indata now1 = (c, [], true)) ∧
    ((stopCapture c now1).1.recording = false ∧
     (stopCapture c now1).1.stream_open = false ∧
     stopCapture (stopCapture c now1).1 now2 =
       ((stopCapture c now1).1, none, []) ∧
     audioCallback (stopCapture c now1).1 d2 now3 =
       ((stopCapture c now1).1, [], false)) := by
  have hc1 : (stopCapture c now1).1 =
      { c with recording := false, stream_open := false } :=
    stopCapture_closed c now1 hrec
  constructor
  · intro hdur
    unfold audioCallback capDuration
    rw [hrec]
    simp only [Bool.not_true, Bool.false_eq_true, if_false]
    rw [if_pos hdur]
  · rw [hc1]
    exact ⟨rfl, rfl, rfl, rfl⟩

/-- Witness for C4 at a session whose elapsed time is simulated to 361
seconds against the 360-second ceiling. -/
theorem duration_guard_stop_exactly_once_witness :
    guardCapture.recording = true ∧
    MAX_RECORDING_DURATION ≤ 361 - guardCapture.start_time ∧
    audioCallback guardCapture [0] 361 = (guardCapture, [], true) ∧
    stopCapture (stopCapture guardCapture 10).1 11 =
      ((stopCapture guardCapture 10).1, none, []) := by
  have hdur : MAX_RECORDING_DURATION ≤ 361 - guardCapture.start_time := by
    norm_num [MAX_RECORDING_DURATION, guardCapture]
  exact ⟨rfl, hdur,
    (duration_guard_stop_exactly_once guardCapture [0] [] 361 1 2 rfl).1 hdur,
    (duration_guard_stop_exactly_once guardCapture [0] [] 10 11 12 rfl).2.2.2.1⟩

/-- C3: stopping a session in which zero blocks were captured returns
None, ends with the application state back at IDLE, and emits no
audio.ready event — the downstream pipeline is never invoked for an empty
buffer. -/
theorem empty_capture_never_dispatched (a : App) (now : ℚ)
    (hframes : a.audio.frames = []) :
    (stopRecording a now).2.1 = none ∧
    (stopRecording a now).1.state = AppState.IDLE ∧
    (stopRecording a now).2.2 =
      [AppEvent.stateChange a.state AppState.PROCESSING,
       AppEvent.dictationStop,
       AppEvent.stateChange AppState.PROCESSING AppState.IDLE] := by
  obtain ⟨h1, h2⟩ := stopCapture_empty a.audio now hframes
  rcases hsc0 : stopCapture a.audio now with ⟨x, y, z⟩
  rw [hsc0] at h1 h2
  simp only at h1 h2
  subst h1
  subst h2
  unfold stopRecording
  dsimp only
  rw [hsc0]
  exact ⟨rfl, rfl, rfl⟩

/-- Witness for C3 at the freshly set-up application (empty frame list). -/
theorem empty_capture_never_dispatched_witness :
    (setupApp defaultAudioConfig).audio.frames = [] ∧
    (stopRecording (setupApp defaultAudioConfig) 1).2.1 = none ∧
    (stopRecording (setupApp defaultAudioConfig) 1).1.state =
      AppState.IDLE :=
  ⟨rfl, (empty_capture_never_dispatched (setupApp defaultAudioConfig) 1 rfl).1,
    (empty_capture_never_dispatched (setupApp defaultAudioConfig) 1 rfl).2.1⟩

/-- Helper: with a working device, start() succeeds and leaves the
recording flag set. -/
theorem startCapture_ok (c : CaptureState) (now : ℚ) :
    (startCapture c true now).1 = true ∧
    (startCapture c true now).2.recording = true := by
  unfold startCapture
  by_cases hrec : c.recording = true
  · rw [if_pos hrec]
    exact ⟨rfl, hrec⟩
  · rw [if_neg hrec]
    exact ⟨rfl, rfl⟩

/-- Helper: _start_recording always moves the state to RECORDING. -/
theorem startRecording_state (a : App) (deviceOk : Bool) (now : ℚ) :
    (startRecording a deviceOk now).1.state = AppState.RECORDING := by
  unfold startRecording
  dsimp only
  split <;> rfl

/-- Helper: with a working device, _start_recording leaves the capture
recording. -/
theorem startRecording_recording_ok (a : App) (now : ℚ) :
    (startRecording a true now).1.audio.recording = true := by
  unfold startRecording
  dsimp only
  rw [if_pos (startCapture_ok a.audio now).1]
  exact (startCapture_ok a.audio now).2

/-- Helper: after _stop_recording the capture is not recording and the
state is PROCESSING (handoff pending) or IDLE (empty capture). -/
theorem stopRecording_parts (a : App) (now : ℚ) :
    (stopRecording a now).1.audio = (stopCapture a.audio now).1 ∧
    ((stopRecording a now).1.state = AppState.PROCESSING ∨
     (stopRecording a now).1.state = AppState.IDLE) := by
  unfold stopRecording
  dsimp only
  split
  · exact ⟨rfl, Or.inr rfl⟩
  · exact ⟨rfl, Or.inl rfl⟩

/-- Helper: a hotkey in IDLE dispatches to _start_recording. -/
theorem onHotkey_idle (a : App) (dOk : Bool) (now : ℚ)
    (ha : a.state = AppState.IDLE) :
    onDictationHotkey a dOk now = startRecording a dOk now := by
  unfold onDictationHotkey
  rw [ha]

/-- Helper: a hotkey in RECORDING dispatches to _stop_recording. -/
theorem onHotkey_recording (a : App) (dOk : Bool) (now : ℚ)
    (ha : a.state = AppState.RECORDING) :
    onDictationHotkey a dOk now =
      ((stopRecording a now).1, (stopRecording a now).2.2, none) := by
  unfold onDictationHotkey
  rw [ha]

/-- C5: toggle semantics of the dictation trigger — in IDLE it starts
recording, in RECORDING it dispatches the stop transition (leaving the
capture not recording and the state in PROCESSING or IDLE, never a second
concurrent session), in PROCESSING it is ignored; triggering twice in a
row from IDLE therefore ends with no recording in progress — at most one
session is ever Recording at a time. -/
theorem single_active_session_toggle (a : App) (deviceOk : Bool)
    (now now2 : ℚ) :
    (a.state = AppState.IDLE →
      onDictationHotkey a deviceOk now = startRecording a deviceOk now ∧
      (deviceOk = true →
        (onDictationHotkey a deviceOk now).1.state = AppState.RECORDING ∧
        (onDictationHotkey a deviceOk now).1.audio.recording = true)) ∧
    (a.state = AppState.RECORDING →
      (onDictationHotkey a deviceOk now).1 = (stopRecording a now).1 ∧
      (onDictationHotkey a deviceOk now).1.audio.recording = false ∧
      ((onDictationHotkey a deviceOk now).1.state = AppState.PROCESSING ∨
       (onDictationHotkey a deviceOk now).1.state = AppState.IDLE)) ∧
    (a.state = AppState.PROCESSING →
      onDictationHotkey a deviceOk now = (a, [], none)) ∧
    (a.state = AppState.IDLE → deviceOk = true →
      (onDictationHotkey (onDictationHotkey a deviceOk now).1 deviceOk
        now2).1.audio.recording = false ∧
      (onDictationHotkey (onDictationHotkey a deviceOk now).1 deviceOk
        now2).1.state ≠ AppState.RECORDING) := by
  refine ⟨?_, ?_, ?_, ?_⟩
  · intro ha
    refine ⟨onHotkey_idle a deviceOk now ha, ?_⟩
    intro hd
    subst hd
    rw [onHotkey_idle a true now ha]
    exact ⟨startRecording_state a true now, startRecording_recording_ok a now⟩
  · intro ha
    rw [onHotkey_recording a deviceOk now ha]
    refine ⟨rfl, ?_, (stopRecording_parts a now).2⟩
    rw [(stopRecording_parts a now).1]
    exact stopCapture_not_recording a.audio now
  · intro ha
    unfold onDictationHotkey
    rw [ha]
  · intro ha hd
    subst hd
    have hb : (onDictationHotkey a true now).1.state = AppState.RECORDING := by
      rw [onHotkey_idle a true now ha]
      exact startRecording_state a true now
    rw [onHotkey_recording _ true now2 hb]
    dsimp only
    constructor
    · rw [(stopRecording_parts _ now2).1]
      exact stopCapture_not_recording _ now2
    · rcases (stopRecording_parts (onDictationHotkey a true now).1 now2).2 with
        h | h <;> rw [h] <;> intro hcontra <;> cases hcontra

/-- Witness for C5 at the freshly set-up application with a working
device. -/
theorem single_active_session_toggle_witness :
    (setupApp defaultAudioConfig).state = AppState.IDLE ∧
    (onDictationHotkey (setupApp defaultAudioConfig) true 1).1.state =
      AppState.RECORDING ∧
    (onDictationHotkey
      (onDictationHotkey (setupApp defaultAudioConfig) true 1).1 true
      2).1.state ≠ AppState.RECORDING :=
  ⟨rfl,
   ((single_active_session_toggle (setupApp defaultAudioConfig) true 1 2).1
      rfl).2 rfl |>.1,
   ((single_active_session_toggle (setupApp defaultAudioConfig) true 1 2).2.2.2
      rfl rfl).2⟩

/-- C1 (divergence witness): when opening the audio device raises during
the Idle to Recording transition, the exception propagates out of
_start_recording while the application state has already been set to
RECORDING and the capture recording flag has already been set — the
transition is not rolled back to Idle.  Only the VAD monitor is indeed not
running. -/
theorem device_open_failure_keeps_recording_state :
    (startRecording (setupApp defaultAudioConfig) false 0).2.2 =
      some "DeviceUnavailable" ∧
    (startRecording (setupApp defaultAudioConfig) false 0).1.state =
      AppState.RECORDING ∧
    (startRecording (setupApp defaultAudioConfig) false 0).1.audio.recording
      = true ∧
    (startRecording (setupApp defaultAudioConfig) false 0).1.vad_active
      = false ∧
    (startRecording (setupApp defaultAudioConfig) false 0).1.vad_thread
      = false :=
  ⟨rfl, rfl, rfl, rfl, rfl⟩

/-- C8 (divergence witness): with the capture configured at 48000 Hz the
VAD still runs at its constructor default of 16000 Hz (setup never passes
the configured rate on), and process_chunk on the loaded VAD succeeds with
a probability for every block — no error and no signal ever surfaces the
mismatch. -/
theorem sample_rate_mismatch_silently_ignored :
    (setupApp { defaultAudioConfig with
      sample_rate := 48000 }).audio.sample_rate = 48000 ∧
    (setupApp { defaultAudioConfig with
      sample_rate := 48000 }).vad.sample_rate = AUDIO_SAMPLE_RATE ∧
    (∀ (model : ScoreFn) (fmt : Bool) (audio : List Int),
      ∃ p,
        (((setupApp { defaultAudioConfig with
            sample_rate := 48000 }).vad.loadWith model fmt).process_chunk
          audio).1 = Except.ok p) := by
  refine ⟨rfl, rfl, ?_⟩
  intro model fmt audio
  have hsess : ((setupApp { defaultAudioConfig with
      sample_rate := 48000 }).vad.loadWith model fmt).session = some model := by
    rw [loadWith_eq_reset, reset_session]
  rw [process_chunk_loaded _ model hsess]
  exact ⟨_, rfl⟩

/-- Helper: each int16 sample encodes to exactly two bytes. -/
theorem i16le_length (x : Int) : (i16le x).length = 2 := rfl

/-- Helper: the data chunk holds two bytes per sample. -/
theorem wavData_length (samples : List Int) :
    ((samples.map i16le).flatten).length = 2 * samples.length := by
  induction samples with
  | nil => rfl
  | cons a l ih =>
    simp only [List.map_cons, List.flatten_cons, List.length_append, ih,
      i16le_length, List.length_cons]
    ring

/-- Helper: little-endian 32-bit encode/decode round trip. -/
theorem decodeU32_bytes (n : Nat) (h : n < 4294967296) :
    decodeU32 (n % 256) (n / 256 % 256) (n / 65536 % 256)
      (n / 16777216 % 256) = n := by
  unfold decodeU32
  omega

/-- C9: serializing N seconds of 16 kHz mono 16-bit audio with _to_wav
produces a WAV container that parses back to channel count 1, sample width
2 bytes, frame rate 16000 and frame count N * 16000 (the bound on N keeps
the 32-bit data-chunk size field of the RIFF header exact; 100000 s is
far beyond MAX_RECORDING_DURATION). -/
theorem wav_round_trip (N : Nat) (samples : List Int)
    (hlen : samples.length = N * 16000) (hN : N ≤ 100000) :
    parseWav (to_wav 16000 samples) = some (1, 2, 16000, N * 16000) := by
  have hdl : ((samples.map i16le).flatten).length = 2 * (N * 16000) := by
    rw [wavData_length, hlen]
  have hb : 2 * (N * 16000) < 4294967296 := by omega
  unfold to_wav
  dsimp only
  rw [hdl]
  simp only [u32le, u16le, AUDIO_CHANNELS, List.cons_append, List.nil_append]
  norm_num
  rw [parseWav]
  norm_num [decodeU16]
  rw [decodeU32_bytes _ hb]
  unfold decodeU32
  norm_num

/-- Witness for C9 at one second of silence. -/
theorem wav_round_trip_witness :
    (List.replicate 16000 (0 : Int)).length = 1 * 16000 ∧
    parseWav (to_wav 16000 (List.replicate 16000 (0 : Int))) =
      some (1, 2, 16000, 1 * 16000) := by
  have h : (List.replicate 16000 (0 : Int)).length = 1 * 16000 := by
    rw [List.length_replicate]
  exact ⟨h, wav_round_trip 1 (List.replicate 16000 (0 : Int)) h (by norm_num)⟩

end LinuxWhispr
